import Mathlib

/-!
Verification of the Sui GraphQL RPC data-provider adapter
(`crates/sui-graphql-rpc/src/server/sui_sdk_data_provider.rs`).

The adapter translates read-only queries into calls against an injected
RPC client and converts the client's native response records into the
GraphQL-facing schema types.  External calls (the client's network
round trips, and the externally defined digest parser) are embedded by
passing their results as explicit arguments: a transport failure is an
`Except.error`, a delivered response an `Except.ok`.  A Rust `unwrap`
on a missing value (the adapter's unchecked preconditions) is modelled
by the dedicated `panicked` outcome, kept distinct from returned errors.
-/

namespace SuiDP

/-- Modelled from the spec: the adapter's error type `crate::error::Error`
is not among the sources; §7 lists the error kinds: conflicting cursor
arguments (both before/after, and both first/last), unsupported reverse
pagination, invalid cursor, per-item fetch failure, internal
inconsistency, and transport failures surfaced verbatim from the client. -/
inductive Error where
  | cursorNoBeforeAfter
  | cursorNoFirstLast
  | cursorNoReversePagination
  | invalidCursor (msg : String)
  | cursorConnectionFetchFailed (msg : String)
  | internal (msg : String)
  | client (msg : String)
deriving DecidableEq

/-- Outcome of a Rust function in this file: a returned value, a returned
error, or a panic on an `unwrap` of a missing value. -/
inductive RustResult (α : Type) where
  | ok (a : α)
  | err (e : Error)
  | panicked
deriving DecidableEq

/-- The adapter's 32-byte address type (`crate::types::sui_address::SuiAddress`,
a byte-array wrapper). -/
structure SuiAddress where
  arr : List Nat
deriving DecidableEq

def SuiAddress.into_array (a : SuiAddress) : List Nat := a.arr

def SuiAddress.as_slice (a : SuiAddress) : List Nat := a.arr

def SuiAddress.from_array (l : List Nat) : SuiAddress := ⟨l⟩

/-- The native client's 32-byte address type. -/
structure NativeSuiAddress where
  inner : List Nat
deriving DecidableEq

def NativeSuiAddress.to_inner (a : NativeSuiAddress) : List Nat := a.inner

/-- `NativeSuiAddress::try_from(&[u8])`: succeeds exactly on 32-byte slices. -/
def NativeSuiAddress.try_from (l : List Nat) : Option NativeSuiAddress :=
  if l.length = 32 then some ⟨l⟩ else none

/-- The native client's 32-byte object identifier. -/
structure NativeObjectID where
  bytes : List Nat
deriving DecidableEq

/-- `ObjectID::try_from(&[u8])`: succeeds exactly on 32-byte slices. -/
def NativeObjectID.try_from_slice (l : List Nat) : Except String NativeObjectID :=
  if l.length = 32 then Except.ok ⟨l⟩ else Except.error ("invalid object id length")

def hexDigitVal (c : Char) : Option Nat :=
  if c.isDigit then some (c.toNat - 48)
  else if 'a' ≤ c ∧ c ≤ 'f' then some (c.toNat - 87)
  else if 'A' ≤ c ∧ c ≤ 'F' then some (c.toNat - 55)
  else none

def pairBytes : List Nat → List Nat
  | a :: b :: rest => (a * 16 + b) :: pairBytes rest
  | _ => []

/-- Modelled from the spec: `ObjectID::from_hex_literal` belongs to the
native client types, which are not among the sources.  §4.2 requires the
`after` cursor to "parse as a valid object identifier" with malformed
cursors rejected; an object identifier is a 32-byte id written as a
`0x`-prefixed hexadecimal literal (glossary: the cursor is "an object
identifier string"). -/
def NativeObjectID.from_hex_literal (s : String) : Except String NativeObjectID :=
  if s.toList.take 2 = ['0', 'x'] then
    let digits := s.toList.drop 2
    if digits.length = 0 ∨ 64 < digits.length then
      Except.error ("invalid hex literal length")
    else
      match digits.mapM hexDigitVal with
      | none => Except.error ("invalid hex character")
      | some vs =>
        let vs2 := if vs.length % 2 = 1 then 0 :: vs else vs
        Except.ok ⟨List.replicate (32 - vs2.length / 2) 0 ++ pairBytes vs2⟩
  else Except.error ("missing 0x prefix")

def hexChar (n : Nat) : Char :=
  if n < 10 then Char.ofNat (48 + n) else Char.ofNat (87 + n)

def byteHex (b : Nat) : List Char := [hexChar (b / 16 % 16), hexChar (b % 16)]

/-- `ObjectID`'s `Display`: a `0x`-prefixed hex rendering of the 32 bytes. -/
def NativeObjectID.to_string (o : NativeObjectID) : String :=
  "0x" ++ String.mk (o.bytes.map byteHex).flatten

/-- Modelled from the spec: the repository's `Base64` wrapper type is not
among the sources; base64-encoded bytes are modelled as the wrapped byte
list itself (the encoding is injective, so nothing about the claims
depends on the character-level rendering). -/
structure Base64 where
  bytes : List Nat
deriving DecidableEq

def Base64.from_bytes (l : List Nat) : Base64 := ⟨l⟩

/-- The schema's closed ownership enumeration (`crate::types::object::ObjectKind`). -/
inductive ObjectKind where
  | Owned
  | Child
  | Shared
  | Immutable
deriving DecidableEq

/-- The native owner variants (`sui_sdk::types::object::Owner`). -/
inductive NativeOwner where
  | AddressOwner (a : NativeSuiAddress)
  | ObjectOwner (a : NativeSuiAddress)
  | Shared (initial_shared_version : Nat)
  | Immutable
deriving DecidableEq

/-- Modelled from the spec: `Owner::get_owner_address` belongs to the
native client types, which are not among the sources.  §4.5: the
conversion "derives owner address by extracting the address from the
owner field when it is an address-owned variant (absent for other
ownership kinds)". -/
def NativeOwner.get_owner_address : NativeOwner → Except String NativeSuiAddress
  | .AddressOwner a => Except.ok a
  | _ => Except.error ("unexpected owner type")

/-- The native raw-contents payload (`SuiRawData`).  A package is
represented by its BCS serialization (`bcs::to_bytes` of the raw package,
an external injective encoder, is modelled as the identity on the
package's byte representation). -/
inductive SuiRawData where
  | Package (bcs_bytes : List Nat)
  | MoveObject (bcs_bytes : List Nat)
deriving DecidableEq

/-- The native object record (`sui_json_rpc_types::SuiObjectData`), with
the fields the adapter reads. -/
structure SuiObjectData where
  object_id : NativeObjectID
  version : Nat
  digest : String
  storage_rebate : Nat
  owner : Option NativeOwner
  bcs : Option SuiRawData
  previous_transaction : Option String
deriving DecidableEq

/-- The schema object record (`crate::types::object::Object`, spec §3). -/
structure Object where
  version : Nat
  digest : String
  storage_rebate : Nat
  address : SuiAddress
  owner : Option SuiAddress
  bcs : Option Base64
  previous_transaction : Option String
  kind : Option ObjectKind
deriving DecidableEq

/-- `convert_obj`: maps a native object record to the schema `Object`.
The Rust code `unwrap`s the owner and the previous-transaction digest;
their absence panics, modelled by `none`. -/
def convert_obj (s : SuiObjectData) : Option Object :=
  match s.owner, s.previous_transaction with
  | some ow, some prev =>
    some {
      version := s.version
      digest := s.digest
      storage_rebate := s.storage_rebate
      address := SuiAddress.from_array s.object_id.bytes
      owner :=
        match ow.get_owner_address with
        | Except.ok x => some (SuiAddress.from_array x.to_inner)
        | Except.error _ => none
      bcs := s.bcs.map (fun raw =>
        match raw with
        | SuiRawData.Package p => Base64.from_bytes p
        | SuiRawData.MoveObject b => Base64.from_bytes b)
      previous_transaction := some prev
      kind := some
        (match ow with
         | NativeOwner.AddressOwner _ => ObjectKind.Owned
         | NativeOwner.ObjectOwner _ => ObjectKind.Child
         | NativeOwner.Shared _ => ObjectKind.Shared
         | NativeOwner.Immutable => ObjectKind.Immutable)
    }
  | _, _ => none

/-- Modelled from the spec: the repository's `BigInt` type is not among
the sources; §3 and the glossary describe it as an arbitrary-precision
integer parsed from a decimal string, modelled as `Int`. -/
abbrev BigInt := Int

/-- Decimal digit-string parsing: the value of a nonempty all-digit
character list. -/
def digitsToNat (l : List Char) : Option Nat :=
  if l.isEmpty then none
  else if l.all Char.isDigit then some (l.foldl (fun n c => n * 10 + (c.toNat - 48)) 0)
  else none

/-- Modelled from the spec: `BigInt::from_str` parses a (possibly signed)
decimal string into the arbitrary-precision integer. -/
def BigInt.from_str (s : String) : Option BigInt :=
  if s.toList.head? = some '-' then (digitsToNat s.toList.tail).map (fun n => -(Int.ofNat n))
  else (digitsToNat s.toList).map Int.ofNat

/-- The native balance record (`sui_json_rpc_types::Balance`): a coin
object count and a 128-bit total, whose `Display` is its decimal digits. -/
structure NativeBalance where
  coin_object_count : Nat
  total_balance : Nat
deriving DecidableEq

/-- The schema balance record (`crate::types::balance::Balance`, spec §3). -/
structure Balance where
  coin_object_count : Nat
  total_balance : BigInt
deriving DecidableEq

/-- `convert_bal`: count copied, total re-parsed from its decimal string
(`format!` of a `u128` is `Nat.repr` here); the `unwrap` on the parse is
modelled by `none`. -/
def convert_bal (b : NativeBalance) : Option Balance :=
  match BigInt.from_str (Nat.repr b.total_balance) with
  | some t => some { coin_object_count := b.coin_object_count, total_balance := t }
  | none => none

/-- The native protocol-config attribute value
(`sui_json_rpc_types::SuiProtocolConfigValue`); `{:?}` debug formatting
renders the variant name around the payload. -/
inductive SuiProtocolConfigValue where
  | u16 (v : Nat)
  | u32 (v : Nat)
  | u64 (v : Nat)
  | f64 (v : String)
deriving DecidableEq

/-- Modelled from the spec: the `{:?}` debug rendering of a native
attribute value (the native type is not among the sources; §4.8 says
each attribute maps to "its debug-formatted string representation"). -/
def SuiProtocolConfigValue.debug_fmt : SuiProtocolConfigValue → String
  | .u16 v => "U16(" ++ Nat.repr v ++ ")"
  | .u32 v => "U32(" ++ Nat.repr v ++ ")"
  | .u64 v => "U64(" ++ Nat.repr v ++ ")"
  | .f64 v => "F64(" ++ v ++ ")"

/-- Schema protocol-config attribute (`crate::types::protocol_config`). -/
structure ProtocolConfigAttr where
  key : String
  value : String
deriving DecidableEq

/-- Schema protocol-config feature flag. -/
structure ProtocolConfigFeatureFlag where
  key : String
  value : Bool
deriving DecidableEq

/-- Schema protocol configs (spec §3). -/
structure ProtocolConfigs where
  configs : List ProtocolConfigAttr
  feature_flags : List ProtocolConfigFeatureFlag
  protocol_version : Nat
deriving DecidableEq

/-- The client's protocol-config response
(`sui_json_rpc_types::ProtocolConfigResponse`): ordered key/value
attribute pairs, ordered feature flags, and the protocol version. -/
structure ProtocolConfigResponse where
  attributes : List (String × Option SuiProtocolConfigValue)
  feature_flags : List (String × Bool)
  protocol_version : Nat
deriving DecidableEq

/-- `fetch_protocol_config`: one client call (its response is the
argument), then field-by-field conversion. -/
def fetch_protocol_config (_version : Option Nat)
    (clientResp : Except String ProtocolConfigResponse) : RustResult ProtocolConfigs :=
  match clientResp with
  | Except.error e => .err (Error.client e)
  | Except.ok cfg =>
    .ok {
      configs := cfg.attributes.map (fun kv =>
        { key := kv.1
          value :=
            match kv.2 with
            | some q => q.debug_fmt
            | none => "" })
      feature_flags := cfg.feature_flags.map (fun x => { key := x.1, value := x.2 })
      protocol_version := cfg.protocol_version }

/-- A per-item object response of the client
(`sui_json_rpc_types::SuiObjectResponse`): data or error, per the
client's documented either/or contract (which the adapter re-checks). -/
structure SuiObjectResponse where
  data : Option SuiObjectData
  error : Option String
deriving DecidableEq

/-- The client's owned-objects page (`ObjectsPage`). -/
structure ObjectsPage where
  data : List SuiObjectResponse
  next_cursor : Option NativeObjectID
  has_next_page : Bool
deriving DecidableEq

/-- A connection edge (`async_graphql::connection::Edge`): cursor key and node. -/
structure Edge where
  cursor : String
  node : Object
deriving DecidableEq

/-- A connection page (`async_graphql::connection::Connection`):
`Connection::new(has_previous_page, has_next_page)` plus edges. -/
structure Connection where
  has_previous_page : Bool
  has_next_page : Bool
  edges : List Edge
deriving DecidableEq

/-- The schema object filter (`crate::types::object::ObjectFilter`);
the adapter ignores it, so its fields are irrelevant here. -/
inductive ObjectFilter where
  | mk
deriving DecidableEq

/-- The `try_for_each` over the page items (lines 104–117): the first
item carrying an error fails the page with that message; the first item
carrying neither data nor error fails it with the internal-inconsistency
message. -/
def check_items : List SuiObjectResponse → Except Error Unit
  | [] => Except.ok ()
  | n :: rest =>
    match n.error with
    | some e => Except.error (Error.cursorConnectionFetchFailed e)
    | none =>
      if n.data.isNone then
        Except.error (Error.internal ("Expected either data or error fields, received neither"))
      else check_items rest

/-- The edge-building pass (lines 120–125): each item's data is
`unwrap`ped (panic modelled by `none`), converted, and keyed by the
object id's string rendering. -/
def build_edges : List SuiObjectResponse → Option (List Edge)
  | [] => some []
  | n :: rest =>
    match n.data with
    | none => none
    | some g =>
      match convert_obj g with
      | none => none
      | some o => (build_edges rest).map (fun es => { cursor := g.object_id.to_string, node := o } :: es)

/-- Cursor decoding (lines 90–96): a present `after` must parse as an
object id hex literal; a parse failure becomes `InvalidCursor` with the
parser's message. -/
def decode_cursor (after : Option String) : Except Error (Option NativeObjectID) :=
  match after with
  | some q =>
    match NativeObjectID.from_hex_literal q with
    | Except.ok c => Except.ok (some c)
    | Except.error w => Except.error (Error.invalidCursor w)
  | none => Except.ok none

/-- `fetch_owned_objs` (lines 67–127): argument validation in source
order, owner-address conversion (an `unwrap`, panics on a non-32-byte
owner), cursor decoding, the client call (response passed in), the
per-item check, and page construction with `Connection::new(false,
pg.has_next_page)`. -/
def fetch_owned_objs (owner : SuiAddress) (first : Option Nat) (after : Option String)
    (last : Option Nat) (before : Option String) (_filter : Option ObjectFilter)
    (clientResp : Except String ObjectsPage) : RustResult Connection :=
  if before.isSome && after.isSome then .err Error.cursorNoBeforeAfter
  else if first.isSome && last.isSome then .err Error.cursorNoFirstLast
  else if before.isSome || last.isSome then .err Error.cursorNoReversePagination
  else
    let _count : Option Nat := first
    match NativeSuiAddress.try_from owner.as_slice with
    | none => .panicked
    | some _native_owner =>
      match decode_cursor after with
      | Except.error e => .err e
      | Except.ok _cursor =>
        match clientResp with
        | Except.error e => .err (Error.client e)
        | Except.ok pg =>
          match check_items pg.data with
          | Except.error e => .err e
          | Except.ok _ =>
            match build_edges pg.data with
            | none => .panicked
            | some es =>
              .ok { has_previous_page := false, has_next_page := pg.has_next_page, edges := es }

/-- The client's past-object response
(`sui_json_rpc_types::SuiPastObjectResponse`): only `VersionFound`
carries a record; every other variant is a non-success outcome. -/
inductive SuiPastObjectResponse where
  | VersionFound (data : SuiObjectData)
  | ObjectNotExists (object_id : NativeObjectID)
  | ObjectDeleted (object_id : NativeObjectID)
  | VersionNotFound (object_id : NativeObjectID) (version : Nat)
  | VersionTooHigh (object_id : NativeObjectID) (asked_version : Nat) (latest_version : Nat)
deriving DecidableEq

/-- `fetch_obj` (lines 43–65): address-to-object-id conversion (a
fallible `try_into`, surfaced through `?`), then either the historical
lookup (only `VersionFound` yields a record, anything else returns
no object) or the current lookup (an error or missing data returns
no object); a found record is converted. -/
def fetch_obj (address : SuiAddress) (version : Option Nat)
    (pastResp : Except String SuiPastObjectResponse)
    (currResp : Except String SuiObjectResponse) : RustResult (Option Object) :=
  match NativeObjectID.try_from_slice address.into_array with
  | Except.error e => .err (Error.client e)
  | Except.ok _oid =>
    match version with
    | some _v =>
      match pastResp with
      | Except.error e => .err (Error.client e)
      | Except.ok r =>
        match r with
        | SuiPastObjectResponse.VersionFound x =>
          match convert_obj x with
          | none => .panicked
          | some o => .ok (some o)
        | _ => .ok none
    | none =>
      match currResp with
      | Except.error e => .err (Error.client e)
      | Except.ok val =>
        if val.error.isSome || val.data.isNone then .ok none
        else
          match val.data with
          | some d =>
            match convert_obj d with
            | none => .panicked
            | some o => .ok (some o)
          | none => .panicked

/-- Schema address wrapper (`crate::types::address::Address`). -/
structure Address where
  address : SuiAddress
deriving DecidableEq

/-- The native gas cost summary (`sui_sdk::types::gas::GasCostSummary`). -/
structure NativeGasCostSummary where
  computation_cost : Nat
  storage_cost : Nat
  storage_rebate : Nat
  non_refundable_storage_fee : Nat
deriving DecidableEq

/-- Schema gas cost summary (`crate::types::gas::GasCostSummary`). -/
structure GasCostSummary where
  computation_cost : Option BigInt
  storage_cost : Option BigInt
  storage_rebate : Option BigInt
  non_refundable_storage_fee : Option BigInt
deriving DecidableEq

/-- Schema gas effects (`crate::types::gas::GasEffects`). -/
structure GasEffects where
  gas_object : Option Object
  gas_summary : Option GasCostSummary
deriving DecidableEq

/-- Schema gas input (`crate::types::gas::GasInput`). -/
structure GasInput where
  gas_sponsor : Option Address
  gas_payment : Option (List Object)
  gas_price : Option BigInt
  gas_budget : Option BigInt
deriving DecidableEq

/-- The effects' gas object reference (`sui_json_rpc_types::OwnedObjectRef`);
only its object id is read. -/
structure OwnedObjectRef where
  object_id : NativeObjectID
deriving DecidableEq

/-- A payment object reference out of the native gas data; only its
object id is read. -/
structure ObjectRef where
  object_id : NativeObjectID
deriving DecidableEq

/-- The native gas data (`sui_json_rpc_types::SuiGasData`). -/
structure SuiGasData where
  payment : List ObjectRef
  owner : NativeSuiAddress
  price : Nat
  budget : Nat
deriving DecidableEq

/-- The native transaction digest (32 bytes); its textual format is
owned by the external parser, so only the parsed value matters here. -/
structure TransactionDigest where
  bytes : List Nat
deriving DecidableEq

/-- The native transaction data: declared sender and gas data (the
fields read through `SuiTransactionBlockDataAPI`). -/
structure SuiTransactionBlockData where
  sender : NativeSuiAddress
  gas_data : SuiGasData
deriving DecidableEq

/-- The native transaction envelope (`sui_json_rpc_types::SuiTransactionBlock`). -/
structure SuiTransactionBlock where
  data : SuiTransactionBlockData
deriving DecidableEq

/-- The native effects (the fields read through
`SuiTransactionBlockEffectsAPI`): transaction digest (rendered to a
string), gas cost summary, and the gas object reference. -/
structure SuiTransactionBlockEffects where
  transaction_digest : String
  gas_cost_summary : NativeGasCostSummary
  gas_object : OwnedObjectRef
deriving DecidableEq

/-- The client's transaction response
(`sui_json_rpc_types::SuiTransactionBlockResponse`). -/
structure SuiTransactionBlockResponse where
  transaction : Option SuiTransactionBlock
  effects : Option SuiTransactionBlockEffects
  raw_transaction : List Nat
deriving DecidableEq

/-- Schema transaction effects (`crate::types::transaction_block`). -/
structure TransactionBlockEffects where
  digest : String
  gas_effects : GasEffects
deriving DecidableEq

/-- Schema transaction block (`crate::types::transaction_block`, spec §3). -/
structure TransactionBlock where
  digest : String
  effects : Option TransactionBlockEffects
  sender : Option Address
  bcs : Option Base64
  gas_input : Option GasInput
deriving DecidableEq

/-- `convert_to_gas_cost_summary` (lines 264–271): four present
arbitrary-precision fields; the `Result` is always `Ok`. -/
def convert_to_gas_cost_summary (gcs : NativeGasCostSummary) : Except Error GasCostSummary :=
  Except.ok {
    computation_cost := some (Int.ofNat gcs.computation_cost)
    storage_cost := some (Int.ofNat gcs.storage_cost)
    storage_rebate := some (Int.ofNat gcs.storage_rebate)
    non_refundable_storage_fee := some (Int.ofNat gcs.non_refundable_storage_fee) }

/-- `convert_to_gas_effects` (lines 273–291): build the summary, fetch
the referenced gas object (response passed in), `unwrap` its data
(panic when absent), convert, and pair the two. -/
def convert_to_gas_effects (gcs : NativeGasCostSummary) (gas_obj_ref : OwnedObjectRef)
    (gasObjResp : Except String SuiObjectResponse) : RustResult GasEffects :=
  let _ := gas_obj_ref.object_id
  match convert_to_gas_cost_summary gcs with
  | Except.error e => .err e
  | Except.ok gas_summary =>
    match gasObjResp with
    | Except.error e => .err (Error.client e)
    | Except.ok gas_obj =>
      match gas_obj.data with
      | none => .panicked
      | some d =>
        match convert_obj d with
        | none => .panicked
        | some gas_object => .ok { gas_object := some gas_object, gas_summary := some gas_summary }

/-- The per-response conversion inside `convert_to_gas_input` (lines
251–254): each response's data is `unwrap`ped and converted. -/
def convert_payment_objs : List SuiObjectResponse → Option (List Object)
  | [] => some []
  | x :: rest =>
    match x.data with
    | none => none
    | some d =>
      match convert_obj d with
      | none => none
      | some o => (convert_payment_objs rest).map (fun l => o :: l)

/-- `convert_to_gas_input` (lines 240–262): one batch fetch of the
payment objects (its response list passed in), conversion of each, and
assembly of sponsor, payments, price, and budget. -/
def convert_to_gas_input (gas_data : SuiGasData)
    (objResponses : Except String (List SuiObjectResponse)) : RustResult GasInput :=
  let _payment_obj_ids := gas_data.payment.map (fun o => o.object_id)
  match objResponses with
  | Except.error e => .err (Error.client e)
  | Except.ok rs =>
    match convert_payment_objs rs with
    | none => .panicked
    | some payment_objs =>
      .ok {
        gas_sponsor := some { address := SuiAddress.from_array gas_data.owner.to_inner }
        gas_payment := some payment_objs
        gas_price := some (Int.ofNat gas_data.price)
        gas_budget := some (Int.ofNat gas_data.budget) }

/-- `fetch_tx` (lines 137–166): digest parsing (the external parser's
result passed in, surfaced through `?` on failure), the client call,
`unwrap` of transaction data and effects (panics when absent), gas
effects and gas input conversion, and assembly of the always-`Some`
transaction block. -/
def fetch_tx (digest : String)
    (parseRes : Except String TransactionDigest)
    (txResp : Except String SuiTransactionBlockResponse)
    (gasObjResp : Except String SuiObjectResponse)
    (paymentResp : Except String (List SuiObjectResponse)) : RustResult (Option TransactionBlock) :=
  match parseRes with
  | Except.error e => .err (Error.client e)
  | Except.ok _tx_digest =>
    match txResp with
    | Except.error e => .err (Error.client e)
    | Except.ok tx =>
      match tx.transaction, tx.effects with
      | some tx_data, some tx_effects =>
        match convert_to_gas_effects tx_effects.gas_cost_summary tx_effects.gas_object gasObjResp with
        | .err e => .err e
        | .panicked => .panicked
        | .ok gas_effects =>
          match convert_to_gas_input tx_data.data.gas_data paymentResp with
          | .err e => .err e
          | .panicked => .panicked
          | .ok gas_input =>
            .ok (some {
              digest := digest
              effects := some { digest := tx_effects.transaction_digest, gas_effects := gas_effects }
              sender := some { address := SuiAddress.from_array tx_data.data.sender.to_inner }
              bcs := some (Base64.from_bytes tx.raw_transaction)
              gas_input := some gas_input })
      | _, _ => .panicked

/-- C1: For every call to fetch owned objects, the three argument
validations run in the stated order before any network call: if both
`before` and `after` are present the call fails with the
conflicting-cursor-arguments error; otherwise if both `first` and `last`
are present it fails with the conflicting page-size error; otherwise if
`before` or `last` is present it fails with the unsupported-reverse-
pagination error; in each of these cases no client call is made (the
result is the same for every client response). -/
theorem c1_owned_objs_validation_order (owner : SuiAddress) (first : Option Nat)
    (after : Option String) (last : Option Nat) (before : Option String)
    (filter : Option ObjectFilter) :
    (before.isSome = true → after.isSome = true →
       ∀ resp, fetch_owned_objs owner first after last before filter resp
         = RustResult.err Error.cursorNoBeforeAfter)
  ∧ (¬ (before.isSome = true ∧ after.isSome = true) →
       first.isSome = true → last.isSome = true →
       ∀ resp, fetch_owned_objs owner first after last before filter resp
         = RustResult.err Error.cursorNoFirstLast)
  ∧ (¬ (before.isSome = true ∧ after.isSome = true) →
       ¬ (first.isSome = true ∧ last.isSome = true) →
       (before.isSome = true ∨ last.isSome = true) →
       ∀ resp, fetch_owned_objs owner first after last before filter resp
         = RustResult.err Error.cursorNoReversePagination) := by
  refine ⟨?_, ?_, ?_⟩
  · intro hb ha resp
    simp [fetch_owned_objs, hb, ha]
  · intro hba hf hl resp
    have h1 : (before.isSome && after.isSome) = false := by
      cases h : before.isSome <;> cases h2 : after.isSome <;> simp_all
    simp [fetch_owned_objs, h1, hf, hl]
  · intro hba hfl hbl resp
    have h1 : (before.isSome && after.isSome) = false := by
      cases h : before.isSome <;> cases h2 : after.isSome <;> simp_all
    have h2 : (first.isSome && last.isSome) = false := by
      cases h : first.isSome <;> cases h3 : last.isSome <;> simp_all
    have h3 : (before.isSome || last.isSome) = true := by
      rcases hbl with h | h <;> simp [h]
    simp [fetch_owned_objs, h1, h2, h3]

theorem c1_owned_objs_validation_order_witness :
    fetch_owned_objs ⟨List.replicate 32 0⟩ none (some ("0xa")) none (some ("0xb")) none
        (Except.ok { data := [], next_cursor := none, has_next_page := true })
      = RustResult.err Error.cursorNoBeforeAfter
  ∧ fetch_owned_objs ⟨List.replicate 32 0⟩ (some 1) none (some 2) none none
        (Except.ok { data := [], next_cursor := none, has_next_page := true })
      = RustResult.err Error.cursorNoFirstLast
  ∧ fetch_owned_objs ⟨List.replicate 32 0⟩ none none (some 2) none none
        (Except.ok { data := [], next_cursor := none, has_next_page := true })
      = RustResult.err Error.cursorNoReversePagination := by
  refine ⟨?_, ?_, ?_⟩
  · exact (c1_owned_objs_validation_order ⟨List.replicate 32 0⟩ none (some ("0xa"))
      none (some ("0xb")) none).1 rfl rfl _
  · exact (c1_owned_objs_validation_order ⟨List.replicate 32 0⟩ (some 1) none
      (some 2) none none).2.1 (by simp) rfl rfl _
  · exact (c1_owned_objs_validation_order ⟨List.replicate 32 0⟩ none none
      (some 2) none none).2.2 (by simp) (by simp) (Or.inr rfl) _

/-- C8: For every fetch owned objects call where `after` is present, the
cursor must parse as a valid object identifier; if it is malformed the
call fails with an invalid-cursor error carrying the parser's message,
and this happens before the client call (the result is the same for
every client response). -/
theorem c8_owned_objs_invalid_cursor (owner : SuiAddress) (first : Option Nat)
    (q : String) (filter : Option ObjectFilter) (w : String)
    (howner : owner.arr.length = 32)
    (hq : NativeObjectID.from_hex_literal q = Except.error w) :
    ∀ resp, fetch_owned_objs owner first (some q) none none filter resp
      = RustResult.err (Error.invalidCursor w) := by
  intro resp
  simp [fetch_owned_objs, NativeSuiAddress.try_from, SuiAddress.as_slice, howner,
    decode_cursor, hq]

theorem c8_owned_objs_invalid_cursor_witness :
    (⟨List.replicate 32 0⟩ : SuiAddress).arr.length = 32
  ∧ NativeObjectID.from_hex_literal ("zz") = Except.error ("missing 0x prefix")
  ∧ fetch_owned_objs ⟨List.replicate 32 0⟩ none (some ("zz")) none none none
        (Except.ok { data := [], next_cursor := none, has_next_page := true })
      = RustResult.err (Error.invalidCursor ("missing 0x prefix")) := by
  refine ⟨by simp, by rfl, ?_⟩
  exact c8_owned_objs_invalid_cursor ⟨List.replicate 32 0⟩ none ("zz") none
    ("missing 0x prefix") (by simp) (by rfl) _

/-- Helper: an accepted forward-pagination call (no `before`, no `last`,
no `after`, 32-byte owner) reduces to the per-item check followed by
page construction. -/
theorem fetch_owned_objs_forward (owner : SuiAddress) (first : Option Nat)
    (filter : Option ObjectFilter) (pg : ObjectsPage)
    (howner : owner.arr.length = 32) :
    fetch_owned_objs owner first none none none filter (Except.ok pg)
      = match check_items pg.data with
        | Except.error e => RustResult.err e
        | Except.ok _ =>
          match build_edges pg.data with
          | none => RustResult.panicked
          | some es =>
            RustResult.ok { has_previous_page := false, has_next_page := pg.has_next_page,
                            edges := es } := by
  simp [fetch_owned_objs, NativeSuiAddress.try_from, SuiAddress.as_slice, howner, decode_cursor]

/-- Helper: a prefix of items that all carry data and no error does not
affect the per-item check. -/
theorem check_items_append (pre rest : List SuiObjectResponse)
    (hpre : ∀ m ∈ pre, m.error = none ∧ m.data.isSome = true) :
    check_items (pre ++ rest) = check_items rest := by
  induction pre with
  | nil => rfl
  | cons m t ih =>
    have hm := hpre m (List.mem_cons_self m t)
    have ht : ∀ x ∈ t, x.error = none ∧ x.data.isSome = true :=
      fun x hx => hpre x (List.mem_cons_of_mem m hx)
    have hdata : m.data.isNone = false := by
      cases h : m.data with
      | none => rw [h] at hm; simp at hm
      | some d => simp
    simp [check_items, hm.1, hdata, ih ht]

/-- C2 as stated is violated by the code: with a page whose first item
carries neither data nor error and whose second item carries the error
"boom", an item carries a per-item error, yet the operation fails with
the internal-inconsistency error, not with a per-item-fetch-failure
carrying "boom". -/
theorem c2_per_item_failure_counterexample :
    (∃ n ∈ ({ data := [{ data := none, error := none },
                       { data := none, error := some ("boom") }],
              next_cursor := none, has_next_page := false } : ObjectsPage).data,
        n.error = some ("boom"))
  ∧ fetch_owned_objs ⟨List.replicate 32 0⟩ none none none none none
        (Except.ok { data := [{ data := none, error := none },
                              { data := none, error := some ("boom") }],
                     next_cursor := none, has_next_page := false })
      = RustResult.err
          (Error.internal ("Expected either data or error fields, received neither"))
  ∧ fetch_owned_objs ⟨List.replicate 32 0⟩ none none none none none
        (Except.ok { data := [{ data := none, error := none },
                              { data := none, error := some ("boom") }],
                     next_cursor := none, has_next_page := false })
      ≠ RustResult.err (Error.cursorConnectionFetchFailed ("boom")) := by
  refine ⟨⟨{ data := none, error := some ("boom") }, by simp, rfl⟩, by rfl, by decide⟩

/-- C2 (amended): during the page check the first item, in page order,
that offends decides the failure: if it carries a per-item error the
whole operation fails with a per-item-fetch-failure error carrying that
item's error message, and if it carries neither data nor error the
operation fails with an internal-inconsistency error; in either case no
partial edge list is returned (the operation does not return a page). -/
theorem c2_per_item_failure_first_offender (owner : SuiAddress) (first : Option Nat)
    (filter : Option ObjectFilter) (pg : ObjectsPage)
    (pre : List SuiObjectResponse) (n : SuiObjectResponse) (post : List SuiObjectResponse)
    (howner : owner.arr.length = 32)
    (hsplit : pg.data = pre ++ n :: post)
    (hpre : ∀ m ∈ pre, m.error = none ∧ m.data.isSome = true) :
    (∀ e, n.error = some e →
        fetch_owned_objs owner first none none none filter (Except.ok pg)
          = RustResult.err (Error.cursorConnectionFetchFailed e))
  ∧ (n.error = none → n.data = none →
        fetch_owned_objs owner first none none none filter (Except.ok pg)
          = RustResult.err
              (Error.internal ("Expected either data or error fields, received neither")))
  ∧ ((n.error.isSome = true ∨ n.data = none) →
        ∀ c, fetch_owned_objs owner first none none none filter (Except.ok pg)
          ≠ RustResult.ok c) := by
  have hforward := fetch_owned_objs_forward owner first filter pg howner
  have hck : check_items pg.data = check_items (n :: post) := by
    rw [hsplit]; exact check_items_append pre (n :: post) hpre
  refine ⟨?_, ?_, ?_⟩
  · intro e he
    rw [hforward, hck]
    simp [check_items, he]
  · intro he hd
    rw [hforward, hck]
    simp [check_items, he, hd]
  · intro hoff c
    rw [hforward, hck]
    rcases hoff with h | h
    · rcases Option.isSome_iff_exists.mp h with ⟨e, he⟩
      simp [check_items, he]
    · cases he : n.error with
      | some e => simp [check_items, he]
      | none => simp [check_items, he, h]

theorem c2_per_item_failure_first_offender_witness :
    fetch_owned_objs ⟨List.replicate 32 0⟩ none none none none none
        (Except.ok { data := [{ data := some { object_id := ⟨List.replicate 32 0⟩,
                                               version := 1, digest := "d",
                                               storage_rebate := 0,
                                               owner := some NativeOwner.Immutable,
                                               bcs := none,
                                               previous_transaction := some ("p") },
                                error := none },
                              { data := none, error := some ("boom") },
                              { data := none, error := none }],
                     next_cursor := none, has_next_page := false })
      = RustResult.err (Error.cursorConnectionFetchFailed ("boom")) := by
  exact (c2_per_item_failure_first_offender ⟨List.replicate 32 0⟩ none none
    { data := [{ data := some { object_id := ⟨List.replicate 32 0⟩, version := 1,
                                digest := "d", storage_rebate := 0,
                                owner := some NativeOwner.Immutable, bcs := none,
                                previous_transaction := some ("p") }, error := none },
               { data := none, error := some ("boom") },
               { data := none, error := none }],
      next_cursor := none, has_next_page := false }
    [{ data := some { object_id := ⟨List.replicate 32 0⟩, version := 1, digest := "d",
                      storage_rebate := 0, owner := some NativeOwner.Immutable, bcs := none,
                      previous_transaction := some ("p") }, error := none }]
    { data := none, error := some ("boom") }
    [{ data := none, error := none }]
    (by simp) rfl (by simp)).1 ("boom") rfl

/-- C10: For every successful fetch owned objects call, the returned
page's has-previous-page flag is always false, regardless of the
arguments and of the client's response, while the has-next-page flag
equals the client's reported has-next-page flag. -/
theorem c10_owned_objs_page_flags (owner : SuiAddress) (first : Option Nat)
    (after : Option String) (last : Option Nat) (before : Option String)
    (filter : Option ObjectFilter) (pg : ObjectsPage) (c : Connection)
    (hok : fetch_owned_objs owner first after last before filter (Except.ok pg)
             = RustResult.ok c) :
    c.has_previous_page = false ∧ c.has_next_page = pg.has_next_page := by
  unfold fetch_owned_objs at hok
  repeat' split at hok
  all_goals try cases hok
  all_goals simp_all

/-- A well-formed sample page for exercising the successful path. -/
def c10_pg : ObjectsPage :=
  { data := [{ data := some { object_id := ⟨List.replicate 32 0⟩, version := 1,
                              digest := "d", storage_rebate := 0,
                              owner := some NativeOwner.Immutable, bcs := none,
                              previous_transaction := some ("p") },
               error := none }],
    next_cursor := none, has_next_page := true }

/-- The page the adapter builds from `c10_pg`. -/
def c10_conn : Connection :=
  { has_previous_page := false, has_next_page := true,
    edges := [{ cursor := NativeObjectID.to_string ⟨List.replicate 32 0⟩,
                node := { version := 1, digest := "d", storage_rebate := 0,
                          address := SuiAddress.from_array (List.replicate 32 0),
                          owner := none, bcs := none,
                          previous_transaction := some ("p"),
                          kind := some ObjectKind.Immutable } }] }

theorem c10_owned_objs_page_flags_witness :
    c10_conn.has_previous_page = false ∧ c10_conn.has_next_page = c10_pg.has_next_page :=
  c10_owned_objs_page_flags ⟨List.replicate 32 0⟩ none none none none none
    c10_pg c10_conn (by rfl)

/-- C3: For every fetch-object call: when a version is given and the
client's response is anything other than version-found, the operation
returns the empty (no object) result rather than an error; when no
version is given and the client's response carries an error or lacks
data, the operation likewise returns the empty result; thus for all
valid addresses with no matching object, fetch-object returns empty,
never an error. -/
theorem c3_fetch_obj_not_found (address : SuiAddress)
    (haddr : address.arr.length = 32) :
    (∀ v r currResp, (∀ x, r ≠ SuiPastObjectResponse.VersionFound x) →
        fetch_obj address (some v) (Except.ok r) currResp = RustResult.ok none)
  ∧ (∀ pastResp val, val.error.isSome = true ∨ val.data.isNone = true →
        fetch_obj address none pastResp (Except.ok val) = RustResult.ok none) := by
  have hid : NativeObjectID.try_from_slice address.into_array
      = Except.ok ⟨address.arr⟩ := by
    simp [NativeObjectID.try_from_slice, SuiAddress.into_array, haddr]
  constructor
  · intro v r currResp hr
    cases r with
    | VersionFound x => exact absurd rfl (hr x)
    | ObjectNotExists oid => simp [fetch_obj, hid]
    | ObjectDeleted oid => simp [fetch_obj, hid]
    | VersionNotFound oid ver => simp [fetch_obj, hid]
    | VersionTooHigh oid av lv => simp [fetch_obj, hid]
  · intro pastResp val hval
    have hcond : (val.error.isSome || val.data.isNone) = true := by
      rcases hval with h | h <;> simp [h]
    simp [fetch_obj, hid, hcond]

theorem c3_fetch_obj_not_found_witness :
    fetch_obj ⟨List.replicate 32 0⟩ (some 5)
        (Except.ok (SuiPastObjectResponse.ObjectNotExists ⟨List.replicate 32 0⟩))
        (Except.ok { data := none, error := none })
      = RustResult.ok none
  ∧ fetch_obj ⟨List.replicate 32 0⟩ none
        (Except.ok (SuiPastObjectResponse.ObjectNotExists ⟨List.replicate 32 0⟩))
        (Except.ok { data := none, error := none })
      = RustResult.ok none := by
  constructor
  · exact (c3_fetch_obj_not_found ⟨List.replicate 32 0⟩ (by simp)).1 5
      (SuiPastObjectResponse.ObjectNotExists ⟨List.replicate 32 0⟩)
      (Except.ok { data := none, error := none })
      (fun x h => SuiPastObjectResponse.noConfusion h)
  · exact (c3_fetch_obj_not_found ⟨List.replicate 32 0⟩ (by simp)).2
      (Except.ok (SuiPastObjectResponse.ObjectNotExists ⟨List.replicate 32 0⟩))
      { data := none, error := none } (Or.inr rfl)

/-- C4: For every native object record (carrying an owner, and — per the
conversion's documented preconditions in §4.5 — a previous-transaction
digest), the object conversion classifies ownership as: owner variant
AddressOwner yields ObjectKind.Owned with a present owner address;
ObjectOwner yields Child; Shared yields Shared; Immutable yields
Immutable; and the converted owner address is absent for every variant
other than AddressOwner. -/
theorem c4_ownership_classification (s : SuiObjectData) (ow : NativeOwner) (pt : String)
    (how : s.owner = some ow) (hprev : s.previous_transaction = some pt) :
    (∀ a, ow = NativeOwner.AddressOwner a →
       (convert_obj s).map Object.kind = some (some ObjectKind.Owned)
     ∧ (convert_obj s).map Object.owner = some (some (SuiAddress.from_array a.to_inner)))
  ∧ (∀ a, ow = NativeOwner.ObjectOwner a →
       (convert_obj s).map Object.kind = some (some ObjectKind.Child)
     ∧ (convert_obj s).map Object.owner = some none)
  ∧ (∀ v, ow = NativeOwner.Shared v →
       (convert_obj s).map Object.kind = some (some ObjectKind.Shared)
     ∧ (convert_obj s).map Object.owner = some none)
  ∧ (ow = NativeOwner.Immutable →
       (convert_obj s).map Object.kind = some (some ObjectKind.Immutable)
     ∧ (convert_obj s).map Object.owner = some none) := by
  refine ⟨?_, ?_, ?_, ?_⟩
  · intro a ha
    subst ha
    simp [convert_obj, how, hprev, NativeOwner.get_owner_address]
  · intro a ha
    subst ha
    simp [convert_obj, how, hprev, NativeOwner.get_owner_address]
  · intro v hv
    subst hv
    simp [convert_obj, how, hprev, NativeOwner.get_owner_address]
  · intro h
    subst h
    simp [convert_obj, how, hprev, NativeOwner.get_owner_address]

/-- A sample native record owned by an address, for exercising C4. -/
def c4_record : SuiObjectData :=
  { object_id := ⟨List.replicate 32 0⟩, version := 7, digest := "d", storage_rebate := 2,
    owner := some (NativeOwner.AddressOwner ⟨List.replicate 32 1⟩), bcs := none,
    previous_transaction := some ("p") }

theorem c4_ownership_classification_witness :
    (convert_obj c4_record).map Object.kind = some (some ObjectKind.Owned)
  ∧ (convert_obj c4_record).map Object.owner
      = some (some (SuiAddress.from_array (List.replicate 32 1))) :=
  (c4_ownership_classification c4_record
    (NativeOwner.AddressOwner ⟨List.replicate 32 1⟩) "p" rfl rfl).1
    ⟨List.replicate 32 1⟩ rfl

/-- Helper: the ten decimal digit characters decode back to their values. -/
theorem digitChar_decode : ∀ d, d < 10 →
    (Nat.digitChar d).isDigit = true ∧ (Nat.digitChar d).toNat - 48 = d := by
  decide

/-- Helper: `Nat.toDigitsCore` only prepends to its accumulator. -/
theorem toDigitsCore_acc (f : Nat) : ∀ (n : Nat) (acc : List Char),
    Nat.toDigitsCore 10 f n acc = Nat.toDigitsCore 10 f n [] ++ acc := by
  induction f with
  | zero => intro n acc; simp [Nat.toDigitsCore]
  | succ f ih =>
    intro n acc
    simp only [Nat.toDigitsCore]
    by_cases h : n / 10 = 0
    · simp [h]
    · simp only [h, if_false]
      rw [ih (n / 10) (Nat.digitChar (n % 10) :: acc),
          ih (n / 10) [Nat.digitChar (n % 10)]]
      simp

/-- Helper: folding the decimal re-parse over the digits produced by
`Nat.toDigitsCore` (with sufficient fuel) recovers the number. -/
theorem toDigitsCore_foldl (f : Nat) : ∀ n a, n < f →
    List.foldl (fun m c => m * 10 + (c.toNat - 48)) a (Nat.toDigitsCore 10 f n [])
      = a * 10 ^ (Nat.toDigitsCore 10 f n []).length + n := by
  induction f with
  | zero => intro n a h; exact absurd h (Nat.not_lt_zero n)
  | succ f ih =>
    intro n a h
    simp only [Nat.toDigitsCore]
    by_cases h0 : n / 10 = 0
    · have hn : n < 10 := by omega
      have hd := digitChar_decode n hn
      simp only [h0, if_true, List.foldl_cons, List.foldl_nil, List.length_cons,
        List.length_nil, pow_one, Nat.mod_eq_of_lt hn, hd.2]
      norm_num
    · simp only [h0, if_false]
      rw [toDigitsCore_acc f (n / 10) [Nat.digitChar (n % 10)]]
      rw [List.foldl_append]
      have hlt : n / 10 < f := by
        have h1 : n / 10 < n := Nat.div_lt_self (by omega) (by omega)
        omega
      rw [ih (n / 10) a hlt]
      have hd := digitChar_decode (n % 10) (Nat.mod_lt n (by omega))
      simp only [List.foldl_cons, List.foldl_nil, List.length_append, List.length_cons,
        List.length_nil, hd.2]
      have hmod : 10 * (n / 10) + n % 10 = n := Nat.div_add_mod n 10
      rw [pow_succ, ← mul_assoc]
      generalize a * 10 ^ (Nat.toDigitsCore 10 f (n / 10) []).length = m
      omega

/-- Helper: every character `Nat.toDigitsCore` emits over a digit
accumulator is a decimal digit. -/
theorem toDigitsCore_digits (f : Nat) : ∀ n (acc : List Char),
    (∀ c ∈ acc, c.isDigit = true) →
    ∀ c ∈ Nat.toDigitsCore 10 f n acc, c.isDigit = true := by
  induction f with
  | zero => intro n acc hacc; simpa [Nat.toDigitsCore] using hacc
  | succ f ih =>
    intro n acc hacc
    simp only [Nat.toDigitsCore]
    by_cases h : n / 10 = 0
    · simp only [h, if_true]
      intro c hc
      rcases List.mem_cons.mp hc with h1 | h1
      · subst h1; exact (digitChar_decode (n % 10) (Nat.mod_lt n (by omega))).1
      · exact hacc c h1
    · simp only [h, if_false]
      refine ih (n / 10) _ ?_
      intro c hc
      rcases List.mem_cons.mp hc with h1 | h1
      · subst h1; exact (digitChar_decode (n % 10) (Nat.mod_lt n (by omega))).1
      · exact hacc c h1

/-- Helper: the decimal rendering of a number is never empty. -/
theorem toDigits_ne_nil (n : Nat) : Nat.toDigits 10 n ≠ [] := by
  unfold Nat.toDigits
  simp only [Nat.toDigitsCore]
  by_cases h : n / 10 = 0
  · simp [h]
  · simp only [h, if_false]
    rw [toDigitsCore_acc]
    simp

/-- Helper: re-parsing the decimal rendering of `n` recovers `n`. -/
theorem digitsToNat_repr (n : Nat) : digitsToNat (Nat.repr n).toList = some n := by
  have hrepr : (Nat.repr n).toList = Nat.toDigits 10 n := rfl
  rw [hrepr]
  have hne : Nat.toDigits 10 n ≠ [] := toDigits_ne_nil n
  have hall : ∀ c ∈ Nat.toDigits 10 n, c.isDigit = true :=
    toDigitsCore_digits (n + 1) n [] (by intro c hc; cases hc)
  unfold digitsToNat
  rw [if_neg (by simp [hne]), if_pos (List.all_eq_true.mpr hall)]
  unfold Nat.toDigits
  rw [toDigitsCore_foldl (n + 1) n 0 (Nat.lt_succ_self n)]
  simp

/-- Helper: the spec-modelled `BigInt::from_str` inverts `Nat.repr`. -/
theorem from_str_repr (n : Nat) : BigInt.from_str (Nat.repr n) = some (Int.ofNat n) := by
  have hall : ∀ c ∈ (Nat.repr n).toList, c.isDigit = true :=
    toDigitsCore_digits (n + 1) n [] (by intro c hc; cases hc)
  have hhead : (Nat.repr n).toList.head? ≠ some '-' := by
    cases hl : (Nat.repr n).toList with
    | nil => simp
    | cons c t =>
      have hc : c.isDigit = true := hall c (by rw [hl]; exact List.mem_cons_self c t)
      simp only [List.head?_cons, ne_eq, Option.some.injEq]
      intro heq
      rw [heq] at hc
      exact absurd hc (by decide)
  unfold BigInt.from_str
  rw [if_neg hhead, digitsToNat_repr]
  rfl

/-- C5: For every native balance record, the balance conversion sets
coin_object_count to the native coin object count and total_balance to
the arbitrary-precision integer obtained by parsing the native value's
decimal string representation, with no truncation or precision loss;
in particular count=3 with total 123456789012345678901234567890
converts to exactly those values. -/
theorem c5_balance_conversion (b : NativeBalance) :
    convert_bal b
      = some { coin_object_count := b.coin_object_count,
               total_balance := Int.ofNat b.total_balance }
  ∧ convert_bal { coin_object_count := 3, total_balance := 123456789012345678901234567890 }
      = some { coin_object_count := 3,
               total_balance := (123456789012345678901234567890 : Int) } := by
  constructor
  · unfold convert_bal
    rw [from_str_repr]
  · unfold convert_bal
    rw [from_str_repr]
    rfl

/-- C6: For every protocol-config response from the client, the
conversion maps each attribute key to its debug-formatted string
representation, with an attribute whose value is absent mapped to the
empty string (not omitted: the lists have equal length), maps each
feature-flag key to its boolean value unchanged, and carries the
protocol version number through unchanged. -/
theorem c6_protocol_config_conversion (version : Option Nat)
    (cfg : ProtocolConfigResponse) (pc : ProtocolConfigs)
    (h : fetch_protocol_config version (Except.ok cfg) = RustResult.ok pc) :
    pc.configs.length = cfg.attributes.length
  ∧ (∀ i, (hi : i < cfg.attributes.length) → (hj : i < pc.configs.length) →
       (pc.configs[i]).key = (cfg.attributes[i]).1
     ∧ ((cfg.attributes[i]).2 = none → (pc.configs[i]).value = "")
     ∧ (∀ q, (cfg.attributes[i]).2 = some q → (pc.configs[i]).value = q.debug_fmt))
  ∧ pc.feature_flags.length = cfg.feature_flags.length
  ∧ (∀ i, (hi : i < cfg.feature_flags.length) → (hj : i < pc.feature_flags.length) →
       (pc.feature_flags[i]).key = (cfg.feature_flags[i]).1
     ∧ (pc.feature_flags[i]).value = (cfg.feature_flags[i]).2)
  ∧ pc.protocol_version = cfg.protocol_version := by
  unfold fetch_protocol_config at h
  cases h
  refine ⟨by simp, ?_, by simp, ?_, rfl⟩
  · intro i hi hj
    refine ⟨by simp, ?_, ?_⟩
    · intro hnone
      simp [List.getElem_map, hnone]
    · intro q hq
      simp [List.getElem_map, hq]
  · intro i hi hj
    constructor <;> simp [List.getElem_map]

/-- A sample protocol-config response with one value-less attribute. -/
def c6_cfg : ProtocolConfigResponse :=
  { attributes := [("max_move_object_size", none)],
    feature_flags := [("enable_zklogin", true)],
    protocol_version := 42 }

/-- The conversion of `c6_cfg`. -/
def c6_pc : ProtocolConfigs :=
  { configs := [{ key := "max_move_object_size", value := "" }],
    feature_flags := [{ key := "enable_zklogin", value := true }],
    protocol_version := 42 }

theorem c6_protocol_config_conversion_witness :
    (c6_pc.configs.get ⟨0, by decide⟩).value = ""
  ∧ c6_pc.protocol_version = c6_cfg.protocol_version := by
  have h := c6_protocol_config_conversion none c6_cfg c6_pc (by rfl)
  refine ⟨?_, h.2.2.2.2⟩
  have h2 := (h.2.1 0 (by decide) (by decide)).2.1 rfl
  simpa [List.get_eq_getElem] using h2

/-- C7: For every fetch-transaction call, the input digest string must
parse into the native digest format or the operation fails; on success
(with transaction data and effects present, as an unchecked
precondition) the result's sender is the transaction's declared sender
address, its bcs field is the raw transaction bytes base64-encoded, and
its digest is the input digest string. -/
theorem c7_fetch_tx_digest_and_fields (digest : String)
    (parseRes : Except String TransactionDigest)
    (txResp : Except String SuiTransactionBlockResponse)
    (gasObjResp : Except String SuiObjectResponse)
    (paymentResp : Except String (List SuiObjectResponse)) :
    (∀ e, parseRes = Except.error e →
        fetch_tx digest parseRes txResp gasObjResp paymentResp
          = RustResult.err (Error.client e))
  ∧ (∀ tx tx_data tb, txResp = Except.ok tx → tx.transaction = some tx_data →
        fetch_tx digest parseRes txResp gasObjResp paymentResp
          = RustResult.ok (some tb) →
        tb.sender = some { address := SuiAddress.from_array tx_data.data.sender.to_inner }
      ∧ tb.bcs = some (Base64.from_bytes tx.raw_transaction)
      ∧ tb.digest = digest) := by
  constructor
  · intro e he
    subst he
    rfl
  · intro tx tx_data tb htx htd hok
    subst htx
    unfold fetch_tx at hok
    repeat' split at hok
    all_goals try cases hok
    all_goals simp_all

/-- A sample native object record serving as the fetched gas object. -/
def sample_gas_obj : SuiObjectData :=
  { object_id := ⟨List.replicate 32 2⟩, version := 1, digest := "gd", storage_rebate := 0,
    owner := some NativeOwner.Immutable, bcs := none, previous_transaction := some ("gp") }

/-- A sample native gas data record. -/
def sample_gas_data : SuiGasData :=
  { payment := [], owner := ⟨List.replicate 32 3⟩, price := 10, budget := 1000 }

/-- A sample native transaction data record. -/
def sample_tx_data : SuiTransactionBlockData :=
  { sender := ⟨List.replicate 32 3⟩, gas_data := sample_gas_data }

/-- A sample native cost summary. -/
def sample_gcs : NativeGasCostSummary :=
  { computation_cost := 1, storage_cost := 2, storage_rebate := 3,
    non_refundable_storage_fee := 4 }

/-- A sample native effects record. -/
def sample_effects : SuiTransactionBlockEffects :=
  { transaction_digest := "EFFD", gas_cost_summary := sample_gcs,
    gas_object := { object_id := ⟨List.replicate 32 2⟩ } }

/-- A sample full-content transaction response. -/
def sample_tx_resp : SuiTransactionBlockResponse :=
  { transaction := some { data := sample_tx_data }, effects := some sample_effects,
    raw_transaction := [1, 2, 3] }

/-- The conversion of `sample_gas_obj`. -/
def sample_gas_obj_converted : Object :=
  { version := 1, digest := "gd", storage_rebate := 0,
    address := SuiAddress.from_array (List.replicate 32 2), owner := none, bcs := none,
    previous_transaction := some ("gp"), kind := some ObjectKind.Immutable }

/-- The schema cost summary built from `sample_gcs`. -/
def sample_gas_summary : GasCostSummary :=
  { computation_cost := some 1, storage_cost := some 2, storage_rebate := some 3,
    non_refundable_storage_fee := some 4 }

/-- The schema gas effects built from the sample data. -/
def sample_gas_effects : GasEffects :=
  { gas_object := some sample_gas_obj_converted, gas_summary := some sample_gas_summary }

/-- The schema gas input built from the sample data. -/
def sample_gas_input : GasInput :=
  { gas_sponsor := some { address := SuiAddress.from_array (List.replicate 32 3) },
    gas_payment := some [], gas_price := some 10, gas_budget := some 1000 }

/-- The transaction block the adapter builds from `sample_tx_resp`. -/
def sample_tx_block : TransactionBlock :=
  { digest := "DIG",
    effects := some { digest := "EFFD", gas_effects := sample_gas_effects },
    sender := some { address := SuiAddress.from_array (List.replicate 32 3) },
    bcs := some (Base64.from_bytes [1, 2, 3]),
    gas_input := some sample_gas_input }

theorem c7_fetch_tx_digest_and_fields_witness :
    sample_tx_block.sender = some { address := SuiAddress.from_array (List.replicate 32 3) }
  ∧ sample_tx_block.bcs = some (Base64.from_bytes [1, 2, 3])
  ∧ sample_tx_block.digest = "DIG" :=
  (c7_fetch_tx_digest_and_fields ("DIG") (Except.ok ⟨List.replicate 32 4⟩)
      (Except.ok sample_tx_resp)
      (Except.ok { data := some sample_gas_obj, error := none })
      (Except.ok [])).2 sample_tx_resp { data := sample_tx_data }
    sample_tx_block rfl rfl (by rfl)

/-- C9: Whenever fetch-transaction returns successfully it always
returns a present TransactionBlock (with effects, sender, bcs, and
gas-input fields all present): despite the declared optional return
type, no execution path of the operation returns the empty (None)
result. -/
theorem c9_fetch_tx_always_present (digest : String)
    (parseRes : Except String TransactionDigest)
    (txResp : Except String SuiTransactionBlockResponse)
    (gasObjResp : Except String SuiObjectResponse)
    (paymentResp : Except String (List SuiObjectResponse))
    (r : Option TransactionBlock)
    (h : fetch_tx digest parseRes txResp gasObjResp paymentResp = RustResult.ok r) :
    r.isSome = true
  ∧ ∀ tb, r = some tb →
      tb.effects.isSome = true ∧ tb.sender.isSome = true
    ∧ tb.bcs.isSome = true ∧ tb.gas_input.isSome = true := by
  unfold fetch_tx at h
  repeat' split at h
  all_goals try cases h
  refine ⟨rfl, ?_⟩
  intro tb htb
  cases htb
  exact ⟨rfl, rfl, rfl, rfl⟩

theorem c9_fetch_tx_always_present_witness :
    (some sample_tx_block : Option TransactionBlock).isSome = true :=
  (c9_fetch_tx_always_present ("DIG") (Except.ok ⟨List.replicate 32 4⟩)
      (Except.ok sample_tx_resp)
      (Except.ok { data := some sample_gas_obj, error := none })
      (Except.ok []) (some sample_tx_block) (by rfl)).1

end SuiDP
